import Mathlib

/-
Verification of the focalboard server orchestration layer: a shallow embedding of
src/server/server/server.go, src/server/server/initHandlers.go and
src/server/services/store/sqlstore/system.go, together with theorems about the
construction (New), startup (Start), shutdown (Shutdown) and the system-settings
store operations.
-/

namespace Focalboard

/-- Propositional equality of Except values is decidable when it is on both components. -/
instance exceptDecEq {ε α : Type} [DecidableEq ε] [DecidableEq α] :
    DecidableEq (Except ε α) := fun a b =>
  match a, b with
  | Except.ok x, Except.ok y =>
      if h : x = y then Decidable.isTrue (congrArg Except.ok h)
      else Decidable.isFalse (fun hc => h (Except.ok.inj hc))
  | Except.error x, Except.error y =>
      if h : x = y then Decidable.isTrue (congrArg Except.error h)
      else Decidable.isFalse (fun hc => h (Except.error.inj hc))
  | Except.ok _, Except.error _ => Decidable.isFalse (fun hc => Except.noConfusion hc)
  | Except.error _, Except.ok _ => Decidable.isFalse (fun hc => Except.noConfusion hc)

/-- A row of the system_settings table, columns (id, value). -/
structure SettingRow where
  id : String
  value : String
  deriving DecidableEq

/-- Go map assignment results[k] = v: overwrite the binding when the key is present,
otherwise add it. -/
def mapSet (m : List (String × String)) (k v : String) : List (String × String) :=
  if m.any (fun p => p.1 == k) then
    m.map (fun p => if p.1 == k then (k, v) else p)
  else
    m ++ [(k, v)]

/-- Go map read m[k] on a map of strings: the bound value, or the zero value "" when the
key is absent. -/
def mapGetD (m : List (String × String)) (k : String) : String :=
  match m.find? (fun p => p.1 == k) with
  | some p => p.2
  | none => ""

/-- Modelled from the spec: execution of the INSERT built by SetSystemSetting against the
system_settings table. The migrations defining the table schema are not under src; the spec's
data model states that setting keys are unique and gives the columns (id, value), so the engine
rejects an INSERT whose id is already present with a duplicate-key store error and otherwise
appends the new row. -/
def execInsert (rows : List SettingRow) (id value : String) : Except String (List SettingRow) :=
  if rows.any (fun r => r.id == id) then
    Except.error "duplicate key"
  else
    Except.ok (rows ++ [{ id := id, value := value }])

/-- SetSystemSetting from src/server/services/store/sqlstore/system.go: build
INSERT INTO system_settings (id, value) VALUES (id, value), execute it, and return the
error when execution fails. -/
def SetSystemSetting (rows : List SettingRow) (id value : String) :
    Except String (List SettingRow) :=
  execInsert rows id value

/-- The rows.Next / rows.Scan loop of GetSystemSettings: scan each row, returning the scan
error when a scan fails, otherwise accumulate results[id] = value. -/
def scanLoop : List (Except String SettingRow) → List (String × String) →
    Except String (List (String × String))
  | [], acc => Except.ok acc
  | Except.error e :: _, _ => Except.error e
  | Except.ok r :: rest, acc => scanLoop rest (mapSet acc r.id r.value)

/-- GetSystemSettings from src/server/services/store/sqlstore/system.go: run
SELECT * FROM system_settings, returning the query error when the query fails; otherwise scan
every returned row into the results map and return the map. The argument is the outcome of the
query: an error, or the list of rows each of which either scans or fails at Scan. -/
def GetSystemSettings (q : Except String (List (Except String SettingRow))) :
    Except String (List (String × String)) :=
  match q with
  | Except.error e => Except.error e
  | Except.ok rows => scanLoop rows []

/-- Reading the settings table when the query and every row scan succeed: the map produced by
GetSystemSettings on a healthy store holding these rows. -/
def settingsMap (rows : List SettingRow) : List (String × String) :=
  rows.foldl (fun m r => mapSet m r.id r.value) []

/-- The configuration fields of config.Configuration read by server.go and initHandlers.go. -/
structure Config where
  authMode : String
  serverRoot : String
  mattermostURL : String
  mattermostClientID : String
  mattermostClientSecret : String
  secureCookie : Bool
  enableLocalMode : Bool
  localModeSocketLocation : String
  sessionExpireTime : Int
  telemetry : Bool
  deriving DecidableEq

/-- einterfaces.MattermostAuthParameters as filled in by initHandlers. -/
structure MattermostAuthParameters where
  serverRoot : String
  mattermostURL : String
  clientID : String
  clientSecret : String
  useSecureCookie : Bool
  deriving DecidableEq

/-- The public web server as seen by this layer: the route providers added to it, each
identified by name. -/
structure WebState where
  routes : List String
  deriving DecidableEq

/-- The REST API facade as seen by this layer: its WorkspaceAuthenticator field, none when the
default authenticator is in place. -/
structure APIState where
  workspaceAuthenticator : Option String
  deriving DecidableEq

/-- The cleanUpSessions recurring task created by Start: its name, its interval, and the
secondsAgo argument its action passes to store.CleanUpSessions on every tick. -/
structure TaskSpec where
  name : String
  intervalMinutes : Nat
  cleanUpSecondsAgo : Int
  deriving DecidableEq

/-- The Server struct fields this embedding tracks: the configuration, the identifier handed to
telemetry.New, the public web server, the API facade, and the two nilable handles
cleanUpSessionsTask and localModeServer. -/
structure ServerState where
  config : Config
  telemetryID : String
  web : WebState
  api : APIState
  cleanUpSessionsTask : Option TaskSpec
  localModeServer : Option Unit
  deriving DecidableEq

/-- initHandlers from src/server/server/initHandlers.go: when the configured auth mode is
"mattermost" and the mattermostAuth capability is registered (non-nil), build the handler from
the configured parameters, add its routes to the public web server and install it as the API's
WorkspaceAuthenticator; otherwise do nothing. The capability is a factory producing a handler,
identified here by name. -/
def initHandlers (cfg : Config) (mattermostAuth : Option (MattermostAuthParameters → String))
    (web : WebState) (api : APIState) : WebState × APIState :=
  if cfg.authMode == "mattermost" then
    match mattermostAuth with
    | some build =>
        let h := build { serverRoot := cfg.serverRoot, mattermostURL := cfg.mattermostURL,
                         clientID := cfg.mattermostClientID,
                         clientSecret := cfg.mattermostClientSecret,
                         useSecureCookie := cfg.secureCookie }
        ({ routes := web.routes ++ [h] }, { workspaceAuthenticator := some h })
    | none => (web, api)
  else
    (web, api)

/-- The environment a run of New executes in: the outcome of each fallible collaborator call,
the stream of values returned by successive uuid.New().String() calls, and the registered
mattermostAuth capability. -/
structure NewEnv where
  loggerErr : Option String
  storeOpen : Except String (List SettingRow)
  filesBackendOk : Bool
  rootWorkspace : Except String Unit
  getSettingsErr : Option String
  registeredUserCount : Except String Int
  dailyActiveUsers : Except String Int
  weeklyActiveUsers : Except String Int
  monthlyActiveUsers : Except String Int
  uuids : Nat → String
  mattermostAuth : Option (MattermostAuthParameters → String)

/-- Observable store effects of a run of New: the final settings table, the SetSystemSetting
calls issued, and how many uuid.New() values were drawn. -/
structure NewTrace where
  finalRows : List SettingRow
  setCalls : List (String × String)
  uuidsUsed : Nat
  deriving DecidableEq

/-- The settings table rows held by the store, empty when the store failed to open. -/
def openedRows (env : NewEnv) : List SettingRow :=
  match env.storeOpen with
  | Except.ok rows => rows
  | Except.error _ => []

/-- Tail of New after the telemetry-id bootstrap: the four usage-count queries, each aborting
construction on error, then assembly of the Server value (task and local-server handles nil)
followed by initHandlers. -/
def finishNew (cfg : Config) (env : NewEnv) (tid : String) (tr : NewTrace) :
    Except String ServerState × NewTrace :=
  match env.registeredUserCount with
  | Except.error e => (Except.error e, tr)
  | Except.ok _ =>
  match env.dailyActiveUsers with
  | Except.error e => (Except.error e, tr)
  | Except.ok _ =>
  match env.weeklyActiveUsers with
  | Except.error e => (Except.error e, tr)
  | Except.ok _ =>
  match env.monthlyActiveUsers with
  | Except.error e => (Except.error e, tr)
  | Except.ok _ =>
    let wa := initHandlers cfg env.mattermostAuth { routes := ["ws", "api"] }
      { workspaceAuthenticator := none }
    (Except.ok { config := cfg, telemetryID := tid, web := wa.1, api := wa.2,
                 cleanUpSessionsTask := none, localModeServer := none }, tr)

/-- New from src/server/server/server.go: initialize the logger, open the store, build the
auth/ws/files/webhook/app/api wiring, call GetRootWorkspace discarding both of its return
values, read the system settings, run the first-run TelemetryID bootstrap (note the source
draws uuid.New().String() twice: once for the local telemetryID variable and again for the
value it persists), gather the four usage counts, and assemble the Server. Paired with the
run's store-effect trace. -/
def New (cfg : Config) (env : NewEnv) : Except String ServerState × NewTrace :=
  match env.loggerErr with
  | some e => (Except.error e, { finalRows := openedRows env, setCalls := [], uuidsUsed := 0 })
  | none =>
  match env.storeOpen with
  | Except.error e => (Except.error e, { finalRows := [], setCalls := [], uuidsUsed := 0 })
  | Except.ok rows =>
  if env.filesBackendOk = false then
    (Except.error "unable to initialize the files storage",
     { finalRows := rows, setCalls := [], uuidsUsed := 0 })
  else
  -- auth.New, ws.NewServer, webhook.NewClient, appBuilder, api.NewAPI, RegisterAdminRoutes:
  -- pure wiring with no effect on the modelled state.
  -- appBuilder().GetRootWorkspace(): the source discards both return values, so
  -- env.rootWorkspace is never consulted.
  match env.getSettingsErr with
  | some e => (Except.error e, { finalRows := rows, setCalls := [], uuidsUsed := 0 })
  | none =>
  let settings := settingsMap rows
  let telemetryID := mapGetD settings "TelemetryID"
  if telemetryID.length == 0 then
    let tid := env.uuids 0
    match SetSystemSetting rows "TelemetryID" (env.uuids 1) with
    | Except.error e =>
        (Except.error e,
         { finalRows := rows, setCalls := [("TelemetryID", env.uuids 1)], uuidsUsed := 2 })
    | Except.ok rows1 =>
        finishNew cfg env tid
          { finalRows := rows1, setCalls := [("TelemetryID", env.uuids 1)], uuidsUsed := 2 }
  else
    finishNew cfg env telemetryID { finalRows := rows, setCalls := [], uuidsUsed := 0 }

/-- The environment a run of Start executes in: the outcome of the public listener bind and of
the local unix-socket listen and chmod calls. -/
structure StartEnv where
  publicBindErr : Option String
  localListenErr : Option String
  localChmodErr : Option String
  deriving DecidableEq

/-- Modelled from the spec: the public transport's web server Start. The web package is not
under src; per the spec a transport bind error is fatal to Start and aborts startup, so the
call either binds successfully or fails carrying the bind error. -/
def webServerStart (env : StartEnv) : Except String Unit :=
  match env.publicBindErr with
  | some e => Except.error e
  | none => Except.ok ()

/-- startLocalModeServer from src: assign the local http server handle, unlink any stale
socket file, listen on the unix socket returning the error on failure, chmod the socket file to
0600 returning the error on failure, then serve in the background. -/
def startLocalModeServer (s : ServerState) (env : StartEnv) : Except String ServerState :=
  let s1 : ServerState := { s with localModeServer := some () }
  match env.localListenErr with
  | some e => Except.error e
  | none =>
  match env.localChmodErr with
  | some e => Except.error e
  | none => Except.ok s1

/-- The body of the cleanUpSessions task from Start: secondsAgo starts at 60*60*24*31 and is
raised to the configured session expiry when that is larger; every tick of the task calls
store.CleanUpSessions with this value. -/
def cleanUpSessionsSecondsAgo (sessionExpireTime : Int) : Int :=
  let secondsAgo : Int := 60 * 60 * 24 * 31
  if secondsAgo < sessionExpireTime then sessionExpireTime else secondsAgo

/-- The scheduler.CreateRecurringTask call in Start: install the cleanUpSessions task with a
10 minute interval. -/
def startTasks (s : ServerState) : ServerState :=
  let t : TaskSpec :=
    ⟨"cleanUpSessions", 10, cleanUpSessionsSecondsAgo s.config.sessionExpireTime⟩
  { s with cleanUpSessionsTask := some t }

/-- Outcome of Start: a started server, a returned error, or a fatal abort of startup (the
public transport's bind failure, which never yields a returned value). -/
inductive StartResult where
  | ok (s : ServerState)
  | err (e : String)
  | fatal (e : String)
  deriving DecidableEq

/-- Start from src/server/server/server.go: start the public web server, start the local mode
server when EnableLocalMode is set returning its error, create the cleanUpSessions recurring
task, and run the telemetry job when enabled. -/
def Start (s : ServerState) (env : StartEnv) : StartResult :=
  match webServerStart env with
  | Except.error e => StartResult.fatal e
  | Except.ok _ =>
  if s.config.enableLocalMode = true then
    match startLocalModeServer s env with
    | Except.error e => StartResult.err e
    | Except.ok s1 => StartResult.ok (startTasks s1)
  else
    StartResult.ok (startTasks s)

/-- The teardown steps Shutdown can execute, in the order the source lists them. -/
inductive ShutEvent where
  | webStop
  | localStop
  | taskCancel
  | telemetryStop
  | storeClose
  deriving DecidableEq

/-- The environment a run of Shutdown executes in: the outcome of the public web server stop
and of the store close. -/
structure ShutEnv where
  webShutdownErr : Option String
  storeShutdownErr : Option String
  deriving DecidableEq

/-- Index of the first occurrence of an event in a trace. -/
def idxOf : List ShutEvent → ShutEvent → Nat
  | [], _ => 0
  | x :: xs, a => if x == a then 0 else idxOf xs a + 1

/-- Whether event a occurs in the trace strictly before event b. -/
def occursBefore (tr : List ShutEvent) (a b : ShutEvent) : Bool :=
  tr.contains a && tr.contains b && Nat.blt (idxOf tr a) (idxOf tr b)

/-- Shutdown from src/server/server/server.go: stop the public web server and return its error
when non-nil, dropping every later step; otherwise stop the local mode server when its handle
is non-nil, cancel the cleanUpSessions task when its handle is non-nil, stop telemetry, and
finally close the store returning its result. Paired with the trace of executed steps. -/
def Shutdown (s : ServerState) (env : ShutEnv) : List ShutEvent × Option String :=
  match env.webShutdownErr with
  | some e => ([ShutEvent.webStop], some e)
  | none =>
    ([ShutEvent.webStop]
      ++ (if s.localModeServer.isSome then [ShutEvent.localStop] else [])
      ++ (if s.cleanUpSessionsTask.isSome then [ShutEvent.taskCancel] else [])
      ++ [ShutEvent.telemetryStop, ShutEvent.storeClose],
     env.storeShutdownErr)

/-- Whether an application-facade call failed. -/
def isExceptError (r : Except String Unit) : Bool :=
  match r with
  | Except.error _ => true
  | Except.ok _ => false

/-- The telemetry identifier of a successfully constructed server, none on a failed run. -/
def telemetryIDOf (r : Except String ServerState) : Option String :=
  match r with
  | Except.ok s => some s.telemetryID
  | Except.error _ => none

/-- A baseline configuration: single-user style defaults with local mode and telemetry off. -/
def baseCfg : Config :=
  { authMode := "native", serverRoot := "http://localhost:8000", mattermostURL := "",
    mattermostClientID := "", mattermostClientSecret := "", secureCookie := false,
    enableLocalMode := false, localModeSocketLocation := "/tmp/focalboard.socket",
    sessionExpireTime := 0, telemetry := false }

/-- A fully healthy first-run environment: empty settings table, every collaborator call
succeeds, and the uuid stream yields uuid-0, uuid-1, and so on. -/
def envFirstRun : NewEnv :=
  { loggerErr := none, storeOpen := Except.ok [], filesBackendOk := true,
    rootWorkspace := Except.ok (), getSettingsErr := none,
    registeredUserCount := Except.ok 5, dailyActiveUsers := Except.ok 1,
    weeklyActiveUsers := Except.ok 2, monthlyActiveUsers := Except.ok 3,
    uuids := fun n => String.append "uuid-" (toString n), mattermostAuth := none }

/-- A healthy environment whose store already holds a non-empty TelemetryID. -/
def envPre : NewEnv :=
  { envFirstRun with storeOpen := Except.ok [{ id := "TelemetryID", value := "tid-pre" }] }

/-- Same as envPre except that the GetRootWorkspace call fails. -/
def envRootFail : NewEnv :=
  { envPre with rootWorkspace := Except.error "workspace unavailable" }

/-- A server value as New produces it: both nilable handles are nil. -/
def sNoStart : ServerState :=
  { config := baseCfg, telemetryID := "tid-pre", web := { routes := ["ws", "api"] },
    api := { workspaceAuthenticator := none }, cleanUpSessionsTask := none,
    localModeServer := none }

/-- A started server: the cleanUpSessions task handle is set. -/
def sStarted : ServerState := startTasks sNoStart

/-- A configuration whose session expiry is 40 days (3456000 seconds). -/
def cfg40 : Config := { baseCfg with sessionExpireTime := 3456000 }

/-- An unstarted server running under the 40-day-expiry configuration. -/
def s40 : ServerState := { sNoStart with config := cfg40 }

/-- A start environment where every bind succeeds. -/
def envStartOk : StartEnv :=
  { publicBindErr := none, localListenErr := none, localChmodErr := none }

/-- A configuration that selects the mattermost auth mode. -/
def cfgMM : Config := { baseCfg with authMode := "mattermost" }

/-- A shutdown environment where stopping the public web server fails. -/
def envShutBoom : ShutEnv := { webShutdownErr := some "boom", storeShutdownErr := none }

/-- A shutdown environment where closing the store fails. -/
def envShutClose : ShutEnv := { webShutdownErr := none, storeShutdownErr := some "close failed" }

/-- Folding one more row into the settings map is a single Go map assignment. -/
theorem settingsMap_append_singleton (rows : List SettingRow) (r : SettingRow) :
    settingsMap (rows ++ [r]) = mapSet (settingsMap rows) r.id r.value := by
  simp [settingsMap, List.foldl_append]

/-- After an overwrite pass of mapSet, lookup of the key finds the fresh pair. -/
theorem find_map_replace (m : List (String × String)) (k v : String)
    (h : m.any (fun p => p.1 == k) = true) :
    (m.map (fun p => if p.1 == k then (k, v) else p)).find? (fun p => p.1 == k) =
      some (k, v) := by
  induction m with
  | nil => simp at h
  | cons p rest ih =>
    cases hp : (p.1 == k) with
    | true =>
      simp only [List.map_cons, hp, if_true]
      exact List.find?_cons_of_pos _ (by simp)
    | false =>
      have h' : rest.any (fun q => q.1 == k) = true := by
        simpa [List.any_cons, hp] using h
      simp only [List.map_cons, hp, if_false]
      rw [List.find?_cons_of_neg _ (by simp [hp])]
      exact ih h'

/-- After appending a fresh pair for an absent key, lookup of the key finds that pair. -/
theorem find_append_absent (m : List (String × String)) (k v : String)
    (h : m.any (fun p => p.1 == k) = false) :
    (m ++ [(k, v)]).find? (fun p => p.1 == k) = some (k, v) := by
  induction m with
  | nil => exact List.find?_cons_of_pos _ (by simp)
  | cons p rest ih =>
    have hp : (p.1 == k) = false := by
      cases hp' : (p.1 == k)
      · rfl
      · rw [List.any_cons, hp', Bool.true_or] at h; exact Bool.noConfusion h
    have h' : rest.any (fun q => q.1 == k) = false := by
      rw [List.any_cons, hp, Bool.false_or] at h; exact h
    rw [List.cons_append, List.find?_cons_of_neg _ (by simp [hp])]
    exact ih h'

/-- Reading back the key just written with a Go map assignment yields the written value. -/
theorem mapGetD_mapSet (m : List (String × String)) (k v : String) :
    mapGetD (mapSet m k v) k = v := by
  unfold mapSet mapGetD
  rcases Bool.eq_false_or_eq_true (m.any fun p => p.1 == k) with ha | ha
  · rw [if_pos ha, find_map_replace m k v ha]
  · rw [if_neg (by rw [ha]; exact Bool.false_ne_true), find_append_absent m k v ha]

/-- A scan loop over rows containing a failing row returns an error. -/
theorem scanLoop_error (rows : List (Except String SettingRow))
    (acc : List (String × String)) (h : ∃ e, Except.error e ∈ rows) :
    ∃ e, scanLoop rows acc = Except.error e := by
  induction rows generalizing acc with
  | nil => rcases h with ⟨e, he⟩; cases he
  | cons r rest ih =>
    cases r with
    | error e => exact ⟨e, rfl⟩
    | ok row =>
      rcases h with ⟨e, he⟩
      rcases List.mem_cons.mp he with h1 | h2
      · exact Except.noConfusion h1
      · exact ih (mapSet acc row.id row.value) ⟨e, h2⟩

/-- A scan loop over rows that all scan returns the folded map. -/
theorem scanLoop_all_ok (rows : List SettingRow) (acc : List (String × String)) :
    scanLoop (rows.map Except.ok) acc =
      Except.ok (rows.foldl (fun m r => mapSet m r.id r.value) acc) := by
  induction rows generalizing acc with
  | nil => rfl
  | cons r rest ih => simpa [scanLoop] using ih (mapSet acc r.id r.value)

/-- On a healthy store GetSystemSettings returns exactly the settings map of the rows. -/
theorem getSystemSettings_healthy (rows : List SettingRow) :
    GetSystemSettings (Except.ok (rows.map Except.ok)) = Except.ok (settingsMap rows) :=
  scanLoop_all_ok rows []

/-- The length test of a non-empty string is false. -/
theorem length_beq_zero_of_ne (s : String) (h : s ≠ "") : (s.length == 0) = false := by
  rw [beq_eq_false_iff_ne]
  intro hl
  apply h
  cases s with
  | mk data =>
    cases data with
    | nil => rfl
    | cons c cs => simp [String.length] at hl

/-- Every branch of finishNew passes the store trace through unchanged. -/
theorem finishNew_trace (cfg : Config) (env : NewEnv) (tid : String) (tr : NewTrace) :
    (finishNew cfg env tid tr).2 = tr := by
  unfold finishNew
  cases env.registeredUserCount with
  | error e => rfl
  | ok c1 =>
    cases env.dailyActiveUsers with
    | error e => rfl
    | ok c2 =>
      cases env.weeklyActiveUsers with
      | error e => rfl
      | ok c3 =>
        cases env.monthlyActiveUsers with
        | error e => rfl
        | ok c4 => rfl

/-- The session-cleanup retention window equals the maximum of the 31-day default and the
configured expiry. -/
theorem cleanUpSecondsAgo_eq_max (e : Int) :
    cleanUpSessionsSecondsAgo e = max 2678400 e := by
  show (if (2678400 : Int) < e then e else 2678400) = max 2678400 e
  rcases le_or_lt e 2678400 with h | h
  · rw [if_neg (not_lt.mpr h), max_eq_left h]
  · rw [if_pos h, max_eq_right h.le]

/-- C1: on a store without a TelemetryID, New draws two random identifiers instead of one: it
persists the second draw ("uuid-1") under the TelemetryID key while handing the first draw
("uuid-0") to the telemetry service, so the persisted identifier differs from the identifier in
use. This exhibits the failure of the claim at the concrete first-run input. -/
theorem telemetry_bootstrap_persists_second_uuid :
    (New baseCfg envFirstRun).2.uuidsUsed = 2 ∧
    (New baseCfg envFirstRun).2.setCalls = [("TelemetryID", "uuid-1")] ∧
    telemetryIDOf (New baseCfg envFirstRun).1 = some "uuid-0" ∧
    mapGetD (settingsMap (New baseCfg envFirstRun).2.finalRows) "TelemetryID" = "uuid-1" ∧
    ("uuid-0" : String) ≠ "uuid-1" :=
  ⟨by decide, by decide, by decide, by decide, by decide⟩

/-- C2 counterexample: at an input where the GetRootWorkspace call fails, New still succeeds,
so construction does not abort on that error as the claim states. -/
theorem new_succeeds_despite_rootWorkspace_error :
    isExceptError envRootFail.rootWorkspace = true ∧
    telemetryIDOf (New baseCfg envRootFail).1 = some "tid-pre" :=
  ⟨by decide, by decide⟩

/-- C2 amended: New invokes the root-workspace call but discards both of its return values, so
its outcome never influences the result of construction. -/
theorem new_rootWorkspace_result_irrelevant (cfg : Config) (env : NewEnv)
    (r : Except String Unit) :
    New cfg { env with rootWorkspace := r } = New cfg env := by
  cases env
  rfl

/-- C3 counterexample: writing the same key twice does not overwrite; the second
SetSystemSetting call fails with a duplicate-key error. -/
theorem setSystemSetting_duplicate_key_on_second_write :
    SetSystemSetting [] "k" "v1" = Except.ok [{ id := "k", value := "v1" }] ∧
    SetSystemSetting [{ id := "k", value := "v1" }] "k" "v2" =
      Except.error "duplicate key" :=
  ⟨by decide, by decide⟩

/-- C3 amended: SetSystemSetting has plain-insert semantics: on a table without the key the
write succeeds and GetSystemSettings maps the key to the written value, but a second write to
the same key returns a duplicate-key error instead of overwriting, leaving the first value in
place. -/
theorem setSystemSetting_insert_only_semantics (rows : List SettingRow) (k v1 v2 : String)
    (hk : rows.any (fun r => r.id == k) = false) :
    SetSystemSetting rows k v1 = Except.ok (rows ++ [{ id := k, value := v1 }]) ∧
    SetSystemSetting (rows ++ [{ id := k, value := v1 }]) k v2 =
      Except.error "duplicate key" ∧
    mapGetD (settingsMap (rows ++ [{ id := k, value := v1 }])) k = v1 := by
  refine ⟨?_, ?_, ?_⟩
  · simp [SetSystemSetting, execInsert, hk]
  · simp [SetSystemSetting, execInsert, List.any_append]
  · rw [settingsMap_append_singleton]
    exact mapGetD_mapSet _ _ _

/-- Witness for the amended C3 statement at the concrete input of the counterexample. -/
theorem setSystemSetting_insert_only_semantics_witness :
    SetSystemSetting [] "a" "v1" = Except.ok [{ id := "a", value := "v1" }] ∧
    SetSystemSetting [{ id := "a", value := "v1" }] "a" "v2" =
      Except.error "duplicate key" ∧
    mapGetD (settingsMap [{ id := "a", value := "v1" }]) "a" = "v1" :=
  setSystemSetting_insert_only_semantics [] "a" "v1" "v2" (by decide)

/-- C4: when the stored TelemetryID is non-empty, New issues no SetSystemSetting call, draws no
random identifier, and leaves the settings table exactly as it was. -/
theorem new_no_write_when_telemetryID_nonempty (cfg : Config) (env : NewEnv)
    (rows : List SettingRow) (hrows : env.storeOpen = Except.ok rows)
    (h : mapGetD (settingsMap rows) "TelemetryID" ≠ "") :
    (New cfg env).2.setCalls = [] ∧ (New cfg env).2.uuidsUsed = 0 ∧
    (New cfg env).2.finalRows = rows := by
  unfold New
  rw [hrows]
  cases env.loggerErr with
  | some e => exact ⟨rfl, rfl, by simp [openedRows, hrows]⟩
  | none =>
    cases env.filesBackendOk with
    | false => exact ⟨rfl, rfl, rfl⟩
    | true =>
      cases env.getSettingsErr with
      | some e => exact ⟨rfl, rfl, rfl⟩
      | none =>
        dsimp only []
        rw [length_beq_zero_of_ne _ h, if_neg Bool.false_ne_true,
          if_neg (fun hc => Bool.noConfusion hc)]
        refine ⟨?_, ?_, ?_⟩ <;> rw [finishNew_trace]

/-- Witness for C4 on a store pre-populated with TelemetryID = "tid-pre". -/
theorem new_no_write_when_telemetryID_nonempty_witness :
    (New baseCfg envPre).2.setCalls = [] ∧ (New baseCfg envPre).2.uuidsUsed = 0 ∧
    (New baseCfg envPre).2.finalRows = [{ id := "TelemetryID", value := "tid-pre" }] :=
  new_no_write_when_telemetryID_nonempty baseCfg envPre
    [{ id := "TelemetryID", value := "tid-pre" }] rfl (by decide)

/-- C5: Shutdown stops the public web server first and returns its error immediately with no
further teardown steps; otherwise the task cancellation and the telemetry stop occur strictly
before the store close and the overall result is the store close result. -/
theorem shutdown_order_and_result (s : ServerState) (env : ShutEnv) :
    (∀ e, env.webShutdownErr = some e → Shutdown s env = ([ShutEvent.webStop], some e)) ∧
    (env.webShutdownErr = none →
      (Shutdown s env).2 = env.storeShutdownErr ∧
      occursBefore (Shutdown s env).1 ShutEvent.telemetryStop ShutEvent.storeClose = true ∧
      (s.cleanUpSessionsTask.isSome = true →
        occursBefore (Shutdown s env).1 ShutEvent.taskCancel ShutEvent.storeClose = true)) := by
  constructor
  · intro e he
    unfold Shutdown
    rw [he]
  · intro hn
    have htr : Shutdown s env =
        ([ShutEvent.webStop]
          ++ (if s.localModeServer.isSome then [ShutEvent.localStop] else [])
          ++ (if s.cleanUpSessionsTask.isSome then [ShutEvent.taskCancel] else [])
          ++ [ShutEvent.telemetryStop, ShutEvent.storeClose], env.storeShutdownErr) := by
      unfold Shutdown
      rw [hn]
    rw [htr]
    refine ⟨rfl, ?_, ?_⟩
    · cases s.localModeServer <;> cases s.cleanUpSessionsTask <;>
        exact of_decide_eq_true rfl
    · intro ht
      cases htk : s.cleanUpSessionsTask with
      | none => rw [htk] at ht; exact Bool.noConfusion ht
      | some t => cases s.localModeServer <;> exact of_decide_eq_true rfl

/-- Witness for C5 on a started server: the aborting case and the ordered case. -/
theorem shutdown_order_and_result_witness :
    Shutdown sStarted envShutBoom = ([ShutEvent.webStop], some "boom") ∧
    (Shutdown sStarted envShutClose).2 = some "close failed" ∧
    occursBefore (Shutdown sStarted envShutClose).1
      ShutEvent.telemetryStop ShutEvent.storeClose = true ∧
    occursBefore (Shutdown sStarted envShutClose).1
      ShutEvent.taskCancel ShutEvent.storeClose = true := by
  refine ⟨(shutdown_order_and_result sStarted envShutBoom).1 "boom" rfl, ?_, ?_, ?_⟩
  · exact ((shutdown_order_and_result sStarted envShutClose).2 rfl).1
  · exact ((shutdown_order_and_result sStarted envShutClose).2 rfl).2.1
  · exact ((shutdown_order_and_result sStarted envShutClose).2 rfl).2.2 (by decide)

/-- C6: the cleanUpSessions task created by a successful Start carries as its per-tick
CleanUpSessions argument the maximum of the 31-day default (2678400 seconds) and the configured
session expiry; in particular a 40-day expiry (3456000 seconds) purges at 40 days, not 31. -/
theorem start_cleanup_retention_is_max (s : ServerState) (env : StartEnv) (s1 : ServerState)
    (h : Start s env = StartResult.ok s1) :
    s1.cleanUpSessionsTask =
      some ⟨"cleanUpSessions", 10, max 2678400 s.config.sessionExpireTime⟩ ∧
    (s.config.sessionExpireTime = 3456000 →
      s1.cleanUpSessionsTask = some ⟨"cleanUpSessions", 10, 3456000⟩) := by
  have key : s1.cleanUpSessionsTask =
      some ⟨"cleanUpSessions", 10, cleanUpSessionsSecondsAgo s.config.sessionExpireTime⟩ := by
    unfold Start webServerStart startLocalModeServer at h
    cases hpb : env.publicBindErr with
    | some e => rw [hpb] at h; exact StartResult.noConfusion h
    | none =>
      rw [hpb] at h
      cases hm : s.config.enableLocalMode with
      | false =>
        rw [hm, if_neg Bool.false_ne_true] at h
        rw [← StartResult.ok.inj h]
        simp [startTasks]
      | true =>
        rw [hm, if_pos rfl] at h
        cases hll : env.localListenErr with
        | some e => rw [hll] at h; exact StartResult.noConfusion h
        | none =>
          rw [hll] at h
          cases hlc : env.localChmodErr with
          | some e => rw [hlc] at h; exact StartResult.noConfusion h
          | none =>
            rw [hlc] at h
            rw [← StartResult.ok.inj h]
            simp [startTasks]
  refine ⟨?_, ?_⟩
  · rw [key, cleanUpSecondsAgo_eq_max]
  · intro he
    rw [key, he]
    decide

/-- Witness for C6 under the 40-day-expiry configuration. -/
theorem start_cleanup_retention_is_max_witness :
    (startTasks s40).cleanUpSessionsTask =
      some ⟨"cleanUpSessions", 10, max 2678400 s40.config.sessionExpireTime⟩ ∧
    (s40.config.sessionExpireTime = 3456000 →
      (startTasks s40).cleanUpSessionsTask = some ⟨"cleanUpSessions", 10, 3456000⟩) :=
  start_cleanup_retention_is_max s40 envStartOk (startTasks s40) (by decide)

/-- C7: Start reports success only when the public bind succeeded and, when local mode is
enabled, the local unix-socket listen succeeded; a public bind failure is fatal and a local
listen failure is returned as the startup error. -/
theorem start_ok_implies_binds_ok (s : ServerState) (env : StartEnv) :
    (∀ s1, Start s env = StartResult.ok s1 →
      env.publicBindErr = none ∧
      (s.config.enableLocalMode = true → env.localListenErr = none)) ∧
    (∀ e, env.publicBindErr = some e → Start s env = StartResult.fatal e) ∧
    (∀ e, env.publicBindErr = none → s.config.enableLocalMode = true →
      env.localListenErr = some e → Start s env = StartResult.err e) := by
  refine ⟨?_, ?_, ?_⟩
  · intro s1 h
    unfold Start webServerStart startLocalModeServer at h
    cases hpb : env.publicBindErr with
    | some e => rw [hpb] at h; exact StartResult.noConfusion h
    | none =>
      refine ⟨rfl, ?_⟩
      intro hm
      rw [hpb, hm, if_pos rfl] at h
      cases hll : env.localListenErr with
      | some e => rw [hll] at h; exact StartResult.noConfusion h
      | none => rfl
  · intro e he
    unfold Start webServerStart
    rw [he]
  · intro e hpb hm hll
    unfold Start webServerStart startLocalModeServer
    rw [hpb, hm, if_pos rfl, hll]

/-- Witness for C7 at a start environment where every bind succeeds. -/
theorem start_ok_implies_binds_ok_witness :
    envStartOk.publicBindErr = none ∧
    (sNoStart.config.enableLocalMode = true → envStartOk.localListenErr = none) :=
  (start_ok_implies_binds_ok sNoStart envStartOk).1 (startTasks sNoStart) (by decide)

/-- C8: when the auth mode selects mattermost but no integration implementation is registered,
initHandlers adds no routes and leaves the API authenticator unchanged. -/
theorem initHandlers_noop_without_integration (cfg : Config) (web : WebState) (api : APIState)
    (h : cfg.authMode = "mattermost") :
    initHandlers cfg none web api = (web, api) := by
  unfold initHandlers
  rw [h]
  rfl

/-- Witness for C8 with the mattermost-mode configuration. -/
theorem initHandlers_noop_without_integration_witness :
    initHandlers cfgMM none { routes := ["ws", "api"] } { workspaceAuthenticator := none } =
      ({ routes := ["ws", "api"] }, { workspaceAuthenticator := none }) :=
  initHandlers_noop_without_integration cfgMM { routes := ["ws", "api"] }
    { workspaceAuthenticator := none } rfl

/-- C9: GetSystemSettings on an empty result set returns the empty mapping and no error; a
failing query returns its error, and a result set containing a row that fails to scan makes
GetSystemSettings return an error. -/
theorem getSystemSettings_empty_and_failure :
    GetSystemSettings (Except.ok []) = Except.ok [] ∧
    (∀ e, GetSystemSettings (Except.error e) = Except.error e) ∧
    (∀ rows, (∃ e, Except.error e ∈ rows) →
      ∃ e, GetSystemSettings (Except.ok rows) = Except.error e) :=
  ⟨rfl, fun _ => rfl, fun rows h => scanLoop_error rows [] h⟩

/-- Witness for C9: the empty store, a failed query, and a failed row scan. -/
theorem getSystemSettings_empty_and_failure_witness :
    GetSystemSettings (Except.ok []) = Except.ok [] ∧
    GetSystemSettings (Except.error "query failed") = Except.error "query failed" ∧
    GetSystemSettings (Except.ok [Except.error "scan failed"]) =
      Except.error "scan failed" :=
  ⟨getSystemSettings_empty_and_failure.1,
   getSystemSettings_empty_and_failure.2.1 "query failed", by decide⟩

/-- C10: on a server constructed but never started (both nilable handles nil), Shutdown skips
the guarded local-server close and task cancellation and still stops telemetry and closes the
store, returning the store close result. -/
theorem shutdown_safe_before_start (s : ServerState) (env : ShutEnv)
    (htask : s.cleanUpSessionsTask = none) (hlocal : s.localModeServer = none)
    (hweb : env.webShutdownErr = none) :
    Shutdown s env =
      ([ShutEvent.webStop, ShutEvent.telemetryStop, ShutEvent.storeClose],
        env.storeShutdownErr) := by
  unfold Shutdown
  rw [hweb, htask, hlocal]
  rfl

/-- Witness for C10 on the never-started server value. -/
theorem shutdown_safe_before_start_witness :
    Shutdown sNoStart { webShutdownErr := none, storeShutdownErr := none } =
      ([ShutEvent.webStop, ShutEvent.telemetryStop, ShutEvent.storeClose], none) :=
  shutdown_safe_before_start sNoStart { webShutdownErr := none, storeShutdownErr := none }
    rfl rfl rfl

end Focalboard
